import Mathlib

/-!
Verification of the video-summarizer app (src/app.py) against its
natural-language specification.  The Python source is shallowly embedded:
pure string processing becomes Lean functions on `String`/`List Char`;
the external collaborators (caption service, audio downloader,
speech-to-text, chat LLM, Streamlit secrets/environment) become explicit
oracle parameters; the filesystem effect on the temporary audio file is
tracked as an explicit boolean in the result.
-/

namespace VideoSummarizer

/-! ## URL / identifier extraction (src/app.py lines 23-26)

`extract_video_id` runs `re.findall(r"v=([a-zA-Z0-9_-]{11})", url)` and
returns the first capture or Python `None`.  We embed the regex search
directly: scan left to right for the first position where the literal
`v=` is followed by at least 11 characters of the class
`[a-zA-Z0-9_-]`, and return those 11 characters. -/

/-- The character class `[a-zA-Z0-9_-]` of the regex.  `Char.isAlphanum`
in Lean is exactly ASCII letters and digits, matching the regex class. -/
def isIdChar (c : Char) : Bool :=
  c.isAlphanum || c == '-' || c == '_'

/-- Attempt the regex match anchored at the head of the character list:
succeeds when the list starts with `v=` followed by 11 characters of the
class, returning those 11 characters (the capture group). -/
def matchVid (cs : List Char) : Option (List Char) :=
  match cs with
  | c1 :: c2 :: rest =>
      if c1 = 'v' ∧ c2 = '=' ∧ (rest.take 11).length = 11 ∧
          (rest.take 11).all isIdChar then
        some (rest.take 11)
      else none
  | _ => none

/-- Leftmost regex search: try `matchVid` at every position left to
right, as `re.findall`/`re.search` does, and return the first capture. -/
def findVid : List Char → Option (List Char)
  | [] => none
  | c :: cs =>
      match matchVid (c :: cs) with
      | some t => some t
      | none => findVid cs

/-- Embedding of `extract_video_id` (src/app.py lines 23-26): the first
`v=<11 id chars>` capture in the URL, or `none` for Python `None`.
Totality of this function embeds the fact that the Python function
cannot raise: `re.findall` is total on any string. -/
def extract_video_id (url : String) : Option String :=
  (findVid url.data).map fun l => String.mk l

/-- A string (as a character list) contains a well-formed `v=` marker
followed by an 11-character token of the id class. -/
def hasVidSegment (cs : List Char) : Prop :=
  ∃ pre t post, cs = pre ++ 'v' :: '=' :: (t ++ post) ∧
    t.length = 11 ∧ t.all isIdChar = true

theorem matchVid_some {cs t : List Char} (h : matchVid cs = some t) :
    ∃ rest, cs = 'v' :: '=' :: rest ∧ t = rest.take 11 ∧
      t.length = 11 ∧ t.all isIdChar = true := by
  match cs with
  | [] => exact absurd h (by simp [matchVid])
  | [c] => exact absurd h (by simp [matchVid])
  | c1 :: c2 :: rest =>
    simp only [matchVid] at h
    by_cases hcond : c1 = 'v' ∧ c2 = '=' ∧ (rest.take 11).length = 11 ∧
        (rest.take 11).all isIdChar
    · rw [if_pos hcond] at h
      injection h with h
      obtain ⟨hv, he, hlen, hall⟩ := hcond
      subst hv; subst he
      exact ⟨rest, rfl, h.symm, h ▸ hlen, h ▸ hall⟩
    · rw [if_neg hcond] at h
      exact Option.noConfusion h

theorem matchVid_of_segment (t post : List Char) (hlen : 11 ≤ t.length)
    (hall : t.all isIdChar = true) :
    matchVid ('v' :: '=' :: (t ++ post)) = some (t.take 11) := by
  unfold matchVid
  have htake : (t ++ post).take 11 = t.take 11 := by
    rw [List.take_append_eq_append_take]
    have h0 : 11 - t.length = 0 := Nat.sub_eq_zero_of_le hlen
    simp [h0]
  have h1 : (t.take 11).length = 11 := by
    simp [List.length_take, Nat.min_eq_left hlen]
  have h2 : (t.take 11).all isIdChar = true := by
    rw [List.all_eq_true] at hall ⊢
    intro x hx
    exact hall x (List.take_subset 11 t hx)
  simp [htake, h1, h2]

theorem matchVid_none_of_ne_v {c : Char} (hc : c ≠ 'v')
    (l : List Char) : matchVid (c :: l) = none := by
  match l with
  | [] => rfl
  | c2 :: rest =>
    simp [matchVid, hc]

theorem findVid_sound {cs t : List Char} (h : findVid cs = some t) :
    t.length = 11 ∧ t.all isIdChar = true ∧
      ∃ pre post, cs = pre ++ 'v' :: '=' :: (t ++ post) := by
  induction cs with
  | nil => simp [findVid] at h
  | cons c cs ih =>
    simp only [findVid] at h
    cases hm : matchVid (c :: cs) with
    | some t0 =>
      rw [hm] at h
      injection h with h
      subst h
      obtain ⟨rest, hcs, htok, hlen, hall⟩ := matchVid_some hm
      refine ⟨hlen, hall, [], rest.drop 11, ?_⟩
      rw [hcs, htok]
      simp [List.take_append_drop]
    | none =>
      rw [hm] at h
      simp only at h
      obtain ⟨hlen, hall, pre, post, hcs⟩ := ih h
      exact ⟨hlen, hall, c :: pre, post, by rw [hcs]; rfl⟩

theorem findVid_complete {cs : List Char} (h : hasVidSegment cs) :
    ∃ t, findVid cs = some t := by
  obtain ⟨pre, t, post, hcs, hlen, hall⟩ := h
  subst hcs
  induction pre with
  | nil =>
    refine ⟨t.take 11, ?_⟩
    have hm := matchVid_of_segment t post (le_of_eq hlen.symm) hall
    simp [findVid, hm]
  | cons c pre ih =>
    obtain ⟨t0, ht0⟩ := ih
    rw [List.cons_append]
    cases hm : matchVid (c :: (pre ++ 'v' :: '=' :: (t ++ post))) with
    | some t1 => exact ⟨t1, by simp [findVid, hm]⟩
    | none => exact ⟨t0, by simp [findVid, hm, ht0]⟩

/-- C4: for every input string containing a well-formed `v=` marker
followed by an 11-character alphanumeric/hyphen/underscore token,
`extract_video_id` returns an 11-character token of that class occurring
right after a `v=` marker in the input (the leftmost such capture); for
every string lacking such a segment it returns `none` (Python `None`).
The function is total, embedding that the Python code never raises on
malformed input. -/
theorem extract_video_id_spec (url : String) :
    (∃ t, extract_video_id url = some (String.mk t) ∧
        t.length = 11 ∧ t.all isIdChar = true ∧
        ∃ pre post, url.data = pre ++ 'v' :: '=' :: (t ++ post)) ∨
    (extract_video_id url = none ∧ ¬ hasVidSegment url.data) := by
  cases hf : findVid url.data with
  | some t =>
    left
    obtain ⟨hlen, hall, pre, post, hcs⟩ := findVid_sound hf
    exact ⟨t, by simp [extract_video_id, hf], hlen, hall, pre, post, hcs⟩
  | none =>
    right
    refine ⟨by simp [extract_video_id, hf], fun hseg => ?_⟩
    obtain ⟨t, ht⟩ := findVid_complete hseg
    rw [hf] at ht
    exact Option.noConfusion ht

theorem findVid_append_of_no_v {pre : List Char} (rest : List Char)
    (h : ∀ c ∈ pre, c ≠ 'v') :
    findVid (pre ++ rest) = findVid rest := by
  induction pre with
  | nil => rfl
  | cons c pre ih =>
    rw [List.cons_append]
    have hm := matchVid_none_of_ne_v (h c (List.mem_cons_self c pre)) (pre ++ rest)
    simp only [findVid, hm]
    exact ih fun x hx => h x (List.mem_cons_of_mem c hx)

/-- C10: when `v=` is followed by MORE than 11 consecutive id-class
characters (and no `v` occurs before the marker, so this is the leftmost
candidate), `extract_video_id` does not report not-found: it returns the
first 11 characters of the longer token, because the regex
`v=([a-zA-Z0-9_-]{11})` is not anchored at a token boundary. -/
theorem extract_video_id_first11_of_long_token
    (pre t post : List Char)
    (hpre : ∀ c ∈ pre, c ≠ 'v') (hlong : 11 < t.length)
    (hall : t.all isIdChar = true) :
    extract_video_id (String.mk (pre ++ 'v' :: '=' :: (t ++ post))) =
      some (String.mk (t.take 11)) := by
  unfold extract_video_id
  rw [show (String.mk (pre ++ 'v' :: '=' :: (t ++ post))).data =
      pre ++ 'v' :: '=' :: (t ++ post) from rfl]
  rw [findVid_append_of_no_v ('v' :: '=' :: (t ++ post)) hpre]
  have hm := matchVid_of_segment t post (le_of_lt hlong) hall
  simp [findVid, hm]

/-- Witness for C10 at a concrete input: `v=` followed by a 12-character
token; the extractor returns its first 11 characters. -/
theorem extract_video_id_first11_witness :
    extract_video_id (String.mk
        ("https://x.y/watch?".data ++ 'v' :: '=' :: ("abcdefghijkl".data ++ "&t=1".data))) =
      some (String.mk ("abcdefghijkl".data.take 11)) :=
  extract_video_id_first11_of_long_token "https://x.y/watch?".data
    "abcdefghijkl".data "&t=1".data (by decide) (by decide) (by decide)

/-! ## Transcript acquisition (src/app.py lines 29-62)

`get_transcript` tries the caption service, and on any exception falls
back to downloading audio with `yt-dlp` and transcribing with Whisper.
The external collaborators are embedded as an oracle record; the
temporary audio file (`tempfile.NamedTemporaryFile(delete=False)`) is
tracked by a boolean giving whether it still exists when the call
returns; the stages invoked are recorded as an event trace. -/

/-- One timed caption fragment as returned by the caption service: a
dict with keys `text`, `start`, `duration`; the code reads only
`text` (line 34). -/
structure TranscriptFragment where
  text : String
  start : ℚ
  duration : ℚ

/-- The collaborator stages `get_transcript` can invoke. -/
inductive Ev
  | captionsCall
  | downloadCall
  | transcribeCall
  deriving DecidableEq

/-- Behaviour of the external collaborators for one acquisition request.
`captions` is the outcome of `YouTubeTranscriptApi.get_transcript`
(line 33; raises on failure).  `downloadRaises` says whether the
`subprocess.run` invocation of `yt-dlp` (line 49) itself raises (e.g.
the binary is missing); `downloadExitOk` records whether the download
actually succeeded, i.e. the subprocess exit status — the code passes
`check=False` and discards stdout/stderr, so this outcome is invisible
to it and never influences control flow.  `transcribe` is the outcome
of the Whisper request (lines 53-56; raises on failure). -/
structure Collaborators where
  captions : Except Unit (List TranscriptFragment)
  downloadRaises : Bool
  downloadExitOk : Bool
  transcribe : Except Unit String

/-- Result of one call to `get_transcript`: the returned value (`none`
for Python `None`), whether the temporary audio file exists after the
call returns, and the trace of collaborator stages invoked. -/
structure GTResult where
  ret : Option String
  tmpExists : Bool
  events : List Ev

/-- An `Except Unit` collaborator outcome is a failure (the Python call
raised). -/
def failed {α : Type} : Except Unit α → Bool
  | .ok _ => false
  | .error _ => true

/-- Embedding of `get_transcript` (src/app.py lines 29-62).

* Caption success (lines 33-35): returns `" ".join(t['text'] ...)`,
  no temp file was ever created, only the caption stage ran.
* Caption failure (line 36): `NamedTemporaryFile(delete=False)` creates
  the temp file (line 40), then `subprocess.run` is invoked.  If that
  invocation raises, the inner `except` (line 59) returns `None` with
  the temp file left on disk.  Otherwise — whatever the exit status,
  since `check=False` — the code opens the temp file and calls the
  Whisper transcription (lines 52-56).  On transcription success
  `os.remove` (line 57) deletes the temp file and the text is returned;
  on transcription failure the `except` returns `None` and `os.remove`
  is never reached, leaking the temp file.

Totality of this function embeds that every exception raised inside
`get_transcript` is caught (lines 31/36 and 38/59): the Python function
never raises to its caller. -/
def get_transcript (o : Collaborators) : GTResult :=
  match o.captions with
  | .ok transcript =>
      { ret := some (String.intercalate " " (transcript.map fun t => t.text))
        tmpExists := false
        events := [.captionsCall] }
  | .error _ =>
      if o.downloadRaises then
        { ret := none
          tmpExists := true
          events := [.captionsCall, .downloadCall] }
      else
        match o.transcribe with
        | .ok text =>
            { ret := some text
              tmpExists := false
              events := [.captionsCall, .downloadCall, .transcribeCall] }
        | .error _ =>
            { ret := none
              tmpExists := true
              events := [.captionsCall, .downloadCall, .transcribeCall] }

/-- C3: when the caption fetch succeeds, `get_transcript` returns the
fragment texts joined in the given (chronological) order, and neither
the audio-download stage nor the transcription stage is invoked. -/
theorem get_transcript_captions_path (o : Collaborators)
    (frags : List TranscriptFragment) (h : o.captions = .ok frags) :
    (get_transcript o).ret =
      some (String.intercalate " " (frags.map fun t => t.text)) ∧
    (get_transcript o).events = [Ev.captionsCall] := by
  simp [get_transcript, h]

/-- Witness for C3 at a concrete input: two caption fragments, audio
and transcription collaborators failing (they are never consulted). -/
theorem get_transcript_captions_path_witness :
    (get_transcript ⟨.ok [⟨"hello", 0, 1⟩, ⟨"world", 1, 1⟩], false, false, .error ()⟩).ret =
      some (String.intercalate " "
        (([⟨"hello", 0, 1⟩, ⟨"world", 1, 1⟩] : List TranscriptFragment).map fun t => t.text)) ∧
    (get_transcript ⟨.ok [⟨"hello", 0, 1⟩, ⟨"world", 1, 1⟩], false, false, .error ()⟩).events =
      [Ev.captionsCall] :=
  get_transcript_captions_path _ [⟨"hello", 0, 1⟩, ⟨"world", 1, 1⟩] rfl

/-- C9: `get_transcript` is a total function returning `Option String`
(never raises: all exceptions are caught inside), and it returns the
`none` sentinel exactly when acquisition failed: the caption fetch
failed and either the download subprocess raised or the transcription
failed.  In all other cases it returns a transcript string. -/
theorem get_transcript_none_iff (o : Collaborators) :
    (get_transcript o).ret = none ↔
      (failed o.captions = true ∧
        (o.downloadRaises = true ∨ failed o.transcribe = true)) := by
  rcases o with ⟨cap, dr, de, tr⟩
  cases cap <;> cases dr <;> cases tr <;> simp [get_transcript, failed]

/-- C8: within one call to `get_transcript` the stage trace is exactly
one of `[captions]`, `[captions, download]`,
`[captions, download, transcribe]`, in that order, with no duplicates:
each stage is attempted at most once, exactly once when reached, and
never retried. -/
theorem get_transcript_stages_once (o : Collaborators) :
    ((get_transcript o).events = [Ev.captionsCall] ∨
     (get_transcript o).events = [Ev.captionsCall, Ev.downloadCall] ∨
     (get_transcript o).events =
       [Ev.captionsCall, Ev.downloadCall, Ev.transcribeCall]) ∧
    (get_transcript o).events.Nodup := by
  rcases o with ⟨cap, dr, de, tr⟩
  cases cap <;> cases dr <;> cases tr <;> simp [get_transcript]

/-- C1 (code-bug evidence): on the fallback path the temporary audio
file is removed on transcription success (line 57), but on transcription
failure the `except` branch (lines 59-62) returns `None` without ever
reaching `os.remove`, so the temp file still exists after the call
returns — contradicting the specified frame condition that it is gone on
both the success and the failure path.  Evaluated here at two concrete
inputs: captions unavailable and audio downloaded in both, transcription
succeeding in the first and failing in the second. -/
theorem get_transcript_tmp_file_leak :
    (get_transcript ⟨.error (), false, true, .ok "spoken text"⟩).tmpExists = false ∧
    (get_transcript ⟨.error (), false, true, .error ()⟩).tmpExists = true ∧
    (get_transcript ⟨.error (), false, true, .error ()⟩).ret = none :=
  ⟨rfl, rfl, rfl⟩

/-- C2 (counterexample): captions fail and the audio download fails with
a nonzero exit status (`downloadExitOk = false`); because the code runs
`yt-dlp` with `check=False` and discards its output, the failure is
undetected and the Whisper transcription service IS called (on the
leftover empty temp file) — refuting the claim that it is never called
when both captions and download fail.  The call does return `None` once
that transcription fails. -/
theorem get_transcript_calls_whisper_on_failed_download :
    (get_transcript ⟨.error (), false, false, .error ()⟩).ret = none ∧
    Ev.transcribeCall ∈ (get_transcript ⟨.error (), false, false, .error ()⟩).events := by
  exact ⟨rfl, by simp [get_transcript]⟩

/-- C2 (amended): when the caption fetch and the audio download both
fail, `get_transcript` behaves as follows.  If the download subprocess
invocation itself raises (e.g. `yt-dlp` missing), the call returns
`None` and the transcription service is never called.  If the download
merely fails with a nonzero exit status, the code does not detect it
(`check=False`): the transcription service is called on the leftover
temp file, and the call returns `None` exactly when that transcription
fails. -/
theorem get_transcript_both_fail (o : Collaborators)
    (hc : failed o.captions = true) (hd : o.downloadExitOk = false) :
    (o.downloadRaises = true →
      (get_transcript o).ret = none ∧
      Ev.transcribeCall ∉ (get_transcript o).events) ∧
    (o.downloadRaises = false →
      Ev.transcribeCall ∈ (get_transcript o).events ∧
      ((get_transcript o).ret = none ↔ failed o.transcribe = true)) := by
  rcases o with ⟨cap, dr, de, tr⟩
  cases cap <;> cases dr <;> cases tr <;>
    simp_all [get_transcript, failed]

/-- Witness for C2 (amended) at a concrete input: captions fail, the
download subprocess raises. -/
theorem get_transcript_both_fail_witness :
    ((⟨.error (), true, false, .error ()⟩ : Collaborators).downloadRaises = true →
      (get_transcript ⟨.error (), true, false, .error ()⟩).ret = none ∧
      Ev.transcribeCall ∉ (get_transcript ⟨.error (), true, false, .error ()⟩).events) ∧
    ((⟨.error (), true, false, .error ()⟩ : Collaborators).downloadRaises = false →
      Ev.transcribeCall ∈ (get_transcript ⟨.error (), true, false, .error ()⟩).events ∧
      ((get_transcript ⟨.error (), true, false, .error ()⟩).ret = none ↔
        failed (⟨.error (), true, false, .error ()⟩ : Collaborators).transcribe = true)) :=
  get_transcript_both_fail ⟨.error (), true, false, .error ()⟩ rfl rfl

/-! ## Summarization (src/app.py lines 65-82)

`summarize_text` picks one of three fixed prompt templates by the
`style` string, issues one chat-completion request, and returns the
stripped response text.  The LLM collaborator is embedded as a function
from requests to response texts; the issued requests are returned
alongside the result so that "a single request" is expressible. -/

/-- One chat message: a `role`/`content` pair as in the `messages`
list of lines 76-79. -/
structure ChatMessage where
  role : String
  content : String

/-- One chat-completion request as built on lines 74-81: model name,
message list, sampling temperature.  The temperature literal `0.6` is
embedded as the rational `6 / 10` (it is only passed through, never
computed with). -/
structure ChatRequest where
  model : String
  messages : List ChatMessage
  temperature : ℚ

/-- The prompt template selection of lines 67-72: `f"...{text}"`
becomes string concatenation.  Any style other than `"short"` and
`"medium"` — in particular `"detailed"` — takes the `else` branch. -/
def buildPrompt (text style : String) : String :=
  if style = "short" then
    "Summarize this YouTube transcript in 3-4 sentences:\n" ++ text
  else if style = "medium" then
    "Summarize this YouTube transcript in 6-8 sentences:\n" ++ text
  else
    "Provide a detailed summary (10-12 sentences):\n" ++ text

/-- The single request built on lines 74-81: model `gpt-4o-mini`, the
fixed system message, the selected prompt as user message, temperature
`0.6`. -/
def buildRequest (text style : String) : ChatRequest :=
  { model := "gpt-4o-mini"
    messages := [⟨"system", "You are a helpful summarizer."⟩,
                 ⟨"user", buildPrompt text style⟩]
    temperature := 6 / 10 }

/-- Embedding of `summarize_text` (src/app.py lines 65-82): issues the
one built request to the LLM collaborator `complete` and returns the
stripped response text (`.strip()` becomes `String.trim`), paired with
the list of requests issued during the call. -/
def summarize_text (complete : ChatRequest → String)
    (text style : String) : String × List ChatRequest :=
  let req := buildRequest text style
  ((complete req).trim, [req])

/-- C5: for any transcript text, `summarize_text` issues exactly one
request and returns the trimmed response to it; the request carries the
fixed system role "You are a helpful summarizer.", fixed model
`gpt-4o-mini` and fixed temperature `0.6`, and its user message is the
3-4 sentence template for style `"short"`, the 6-8 sentence template
for `"medium"`, and the 10-12 sentence template for `"detailed"`. -/
theorem summarize_text_spec (complete : ChatRequest → String)
    (text : String) :
    (∀ style, (summarize_text complete text style).2 =
        [buildRequest text style] ∧
      (summarize_text complete text style).1 =
        (complete (buildRequest text style)).trim) ∧
    buildRequest text "short" =
      ⟨"gpt-4o-mini",
       [⟨"system", "You are a helpful summarizer."⟩,
        ⟨"user", "Summarize this YouTube transcript in 3-4 sentences:\n" ++ text⟩],
       6 / 10⟩ ∧
    buildRequest text "medium" =
      ⟨"gpt-4o-mini",
       [⟨"system", "You are a helpful summarizer."⟩,
        ⟨"user", "Summarize this YouTube transcript in 6-8 sentences:\n" ++ text⟩],
       6 / 10⟩ ∧
    buildRequest text "detailed" =
      ⟨"gpt-4o-mini",
       [⟨"system", "You are a helpful summarizer."⟩,
        ⟨"user", "Provide a detailed summary (10-12 sentences):\n" ++ text⟩],
       6 / 10⟩ := by
  refine ⟨fun style => ⟨rfl, rfl⟩, rfl, rfl, rfl⟩

/-! ## Startup credential check and top-level flow
(src/app.py lines 12-17 and 88-124) -/

/-- Outcome of the startup credential check of lines 12-17. -/
inductive Startup
  | halted (message : String)
  | running (apiKey : String)

/-- Line 12: `st.secrets.get("OPENAI_API_KEY", os.getenv("OPENAI_API_KEY"))`
— the secrets value when present, otherwise the environment value,
otherwise Python `None`. -/
def resolveApiKey (secrets envKey : Option String) : Option String :=
  match secrets with
  | some v => some v
  | none => envKey

/-- Lines 13-17: `if not api_key` — true for both `None` and the empty
string (Python falsiness) — shows the error and calls `st.stop()`,
halting the script before the `OpenAI` client on line 17 is ever
constructed; otherwise the process runs with the resolved key. -/
def startup (secrets envKey : Option String) : Startup :=
  match resolveApiKey secrets envKey with
  | none => .halted "❌ OpenAI API key not found. Please add it in secrets.toml or Streamlit Cloud Secrets."
  | some k =>
      if k = "" then
        .halted "❌ OpenAI API key not found. Please add it in secrets.toml or Streamlit Cloud Secrets."
      else .running k

/-- Final outcome of one submission through the page flow of
lines 95-124. -/
inductive Outcome
  | haltedNoKey (message : String)
  | invalidUrl
  | transcriptUnavailable
  | summarized (summary : String)

/-- Result of one run: the outcome, the acquisition stages invoked, and
the LLM requests issued. -/
structure AppResult where
  outcome : Outcome
  events : List Ev
  requests : List ChatRequest

/-- Embedding of the whole script for one submitted URL (src/app.py
lines 12-17 and 95-124), on the path where the user has entered a URL,
picked a summary style and clicked the button: the startup check runs
first; then `extract_video_id` (line 96) — `None` shows "Invalid
YouTube link format." and stops (lines 97-98) before any collaborator
is contacted; then `get_transcript` (line 101) — `None` shows an error
(line 124); otherwise `summarize_text` (line 112) produces the
summary. -/
def runApp (secrets envKey : Option String) (o : Collaborators)
    (complete : ChatRequest → String) (style url : String) : AppResult :=
  match startup secrets envKey with
  | .halted m => ⟨.haltedNoKey m, [], []⟩
  | .running _ =>
      match extract_video_id url with
      | none => ⟨.invalidUrl, [], []⟩
      | some _ =>
          let r := get_transcript o
          match r.ret with
          | none => ⟨.transcriptUnavailable, r.events, []⟩
          | some t =>
              let s := summarize_text complete t style
              ⟨.summarized s.1, r.events, s.2⟩

/-- C7: when neither Streamlit secrets nor the environment provide the
API key, startup resolves no credential, the user-facing error is
emitted and the script halts: no collaborator stage runs, no LLM request
is issued, and the `running` state carrying a client key is never
reached, for every collaborator behaviour, style and URL. -/
theorem startup_halts_without_key (o : Collaborators)
    (complete : ChatRequest → String) (style url : String) :
    runApp none none o complete style url =
      ⟨.haltedNoKey "❌ OpenAI API key not found. Please add it in secrets.toml or Streamlit Cloud Secrets.", [], []⟩ ∧
    startup none none =
      .halted "❌ OpenAI API key not found. Please add it in secrets.toml or Streamlit Cloud Secrets." :=
  ⟨rfl, rfl⟩

/-- C6: on the spec's example inputs: the watch URL yields the
identifier `dQw4w9WgXcQ`, while `https://example.com/no-video` yields
no identifier and the pipeline (run with a present credential) stops
with the invalid-URL outcome before contacting any collaborator — no
caption, download or transcription stage and no LLM request. -/
theorem pipeline_examples (o : Collaborators)
    (complete : ChatRequest → String) (style : String) :
    extract_video_id "https://www.youtube.com/watch?v=dQw4w9WgXcQ" =
      some "dQw4w9WgXcQ" ∧
    extract_video_id "https://example.com/no-video" = none ∧
    runApp (some "sk-test") none o complete style
        "https://example.com/no-video" = ⟨.invalidUrl, [], []⟩ :=
  ⟨rfl, rfl, rfl⟩

end VideoSummarizer
